import Mathlib

/-!
Verification development for the content acquisition and deduplication
pipeline (state_tracker.py, monitor.py, scraper.py).

Each Python construct is embedded shallowly:
pure methods become Lean functions, the mutable `self.state` dict becomes
an explicit state value threaded through the operations, and Python
exceptions at the modelled boundaries become explicit outcome values.
-/

namespace KesselRun

/-- Embedding of the `InstagramPost` dataclass from scraper.py.  Only the
fields consulted by the deduplication ledger and the claims are carried;
file-system handles (`media_path`, `screenshot_path`) are I/O resources
outside the pure model. -/
structure InstagramPost where
  shortcode : String
  url : String
  caption : String
  likes : Nat
  is_video : Bool
  is_story : Bool
deriving DecidableEq, Repr

/-- Embedding of one per-username entry of the `state.json` dict:
`{"posts": [...], "stories": [...], "last_run": ...}` as created by
`StateTracker.mark_analyzed`. -/
structure AccountState where
  posts : List String
  stories : List String
  last_run : Option String
deriving DecidableEq, Repr

/-- Embedding of the `self.state` dict of `StateTracker`: a finite map
from username to the account entry, modelled as a total function into
`Option`. -/
def StateMap : Type := String → Option AccountState

/-- Empty state dict, as produced by `_load_state` when no file exists. -/
def emptyState : StateMap := fun _ => none

/-- Python dict assignment `state[u] = a`. -/
def dictSet (st : StateMap) (u : String) (a : AccountState) : StateMap :=
  fun v => if v = u then some a else st v

/-- Embedding of `StateTracker.get_analyzed_posts`: the stored shortcode
list for the username, empty when the username is absent.  The Python
code converts the list to a `set`; only membership in the result is ever
consulted, so the list carries the same information. -/
def get_analyzed_posts (st : StateMap) (u : String) : List String :=
  match st u with
  | none => []
  | some a => a.posts

/-- Embedding of `StateTracker.get_analyzed_stories`. -/
def get_analyzed_stories (st : StateMap) (u : String) : List String :=
  match st u with
  | none => []
  | some a => a.stories

/-- Embedding of `StateTracker.filter_new_posts`:
`[p for p in all_posts if p.shortcode not in analyzed]`.  The method
only reads `self.state`, hence the embedding takes the state as a plain
argument and returns only the filtered list: purity is structural. -/
def filter_new_posts (st : StateMap) (u : String)
    (all_posts : List InstagramPost) : List InstagramPost :=
  let analyzed := get_analyzed_posts st u
  all_posts.filter (fun p => decide (p.shortcode ∉ analyzed))

/-- Embedding of `StateTracker.filter_new_stories`. -/
def filter_new_stories (st : StateMap) (u : String)
    (all_stories : List InstagramPost) : List InstagramPost :=
  let analyzed := get_analyzed_stories st u
  all_stories.filter (fun s => decide (s.shortcode ∉ analyzed))

/-- Embedding of `list(set(existing) | set(new))` as performed by
`mark_analyzed` (`existing.update(ids)` on a `set` built from the stored
list, then `list(...)`).  CPython iterates the set in an unspecified
hash order; the embedding fixes one concrete duplicate-free enumeration
of the union, which carries exactly the information the program ever
uses (membership and cardinality). -/
def pyListUnion (existing newIds : List String) : List String :=
  (existing ++ newIds).dedup

/-- Embedding of `StateTracker.mark_analyzed`.  Mirrors the method body:
create the entry if the username is new, union the post shortcodes into
`posts` when the argument list is truthy (non-empty), likewise for
stories, then stamp `last_run` with the current time (passed explicitly
as `now`).  The trailing `_save_state` call does not change the
in-memory state; its file-system effect is modelled separately for the
persistence claim. -/
def mark_analyzed (st : StateMap) (u : String)
    (post_shortcodes story_ids : List String) (now : String) : StateMap :=
  let entry0 : AccountState :=
    match st u with
    | some a => a
    | none => { posts := [], stories := [], last_run := none }
  let entry1 : AccountState :=
    if post_shortcodes.isEmpty then entry0
    else { entry0 with posts := pyListUnion entry0.posts post_shortcodes }
  let entry2 : AccountState :=
    if story_ids.isEmpty then entry1
    else { entry1 with stories := pyListUnion entry1.stories story_ids }
  dictSet st u { entry2 with last_run := some now }

/-- Python list slice `xs[-n:]` on a list of length `len`: the last `n`
elements, except that `xs[-0:]` is `xs[0:]`, i.e. the whole list. -/
def pyLastSlice (xs : List String) (n : Nat) : List String :=
  if n = 0 then xs else xs.drop (xs.length - n)

/-- Embedding of `StateTracker.cleanup_old_stories`: when the username
is tracked and its story list is longer than `max_stories`, keep only
`stories[-max_stories:]`; otherwise leave the state untouched. -/
def cleanup_old_stories (st : StateMap) (u : String) (max_stories : Nat) :
    StateMap :=
  match st u with
  | none => st
  | some a =>
    if a.stories.length > max_stories then
      dictSet st u { a with stories := pyLastSlice a.stories max_stories }
    else st

/-- Outcome of attempting to read and parse the persisted state file in
`StateTracker._load_state`: the file may be absent, may parse to a state
dict, or may exist but fail to parse (`json.load` raises). -/
inductive LoadOutcome where
  | missing : LoadOutcome
  | parsed : StateMap → LoadOutcome
  | corrupt : LoadOutcome

/-- Embedding of `StateTracker._load_state`: a missing file and an
unparsable file both yield the empty dict (the `except` branch returns
`{}` after logging a warning); a parsable file yields its contents.
The function is total: no outcome propagates an exception. -/
def load_state : LoadOutcome → StateMap
  | LoadOutcome.missing => emptyState
  | LoadOutcome.parsed st => st
  | LoadOutcome.corrupt => emptyState

/-- File-system operations relevant to persisting the ledger.  `truncate`
models opening an existing file with mode "w" (contents become empty),
`write` models appending a chunk of serialized output, and `replace`
models an atomic rename of a fully written temporary file over the
target. -/
inductive FsOp where
  | truncate : FsOp
  | write : String → FsOp
  | replace : String → FsOp
deriving DecidableEq, Repr

/-- Effect of one file-system operation on the file contents. -/
def applyFsOp (contents : String) : FsOp → String
  | FsOp.truncate => ""
  | FsOp.write s => contents ++ s
  | FsOp.replace s => s

/-- Every contents value an external reader (or a reader after a crash
at any point of the operation sequence) can observe: the initial
contents followed by the contents after each successive operation. -/
def observableStates (initial : String) (ops : List FsOp) : List String :=
  List.scanl applyFsOp initial ops

/-- Embedding of `StateTracker._save_state`:
`open(self.state_file, "w")` truncates the target file in place, then
`json.dump(self.state, f, ...)` writes the serialized payload into it
as one or more chunks.  There is no temporary file and no rename. -/
def save_state_ops (chunks : List String) : List FsOp :=
  FsOp.truncate :: chunks.map FsOp.write

/-- Definition following the spec words, for comparison: a
write-then-replace save prepares the full payload elsewhere and
atomically replaces the target, so the target file itself undergoes the
single operation `replace`. -/
def specAtomicSaveOps (payload : String) : List FsOp :=
  [FsOp.replace payload]

/-- Atomicity as the spec states it: every observable contents value of
the state file during the save is either the complete old contents or
the complete new contents. -/
def AtomicVisibility (oldC newC : String) (ops : List FsOp) : Prop :=
  ∀ c ∈ observableStates oldC ops, c = oldC ∨ c = newC

instance (oldC newC : String) (ops : List FsOp) :
    Decidable (AtomicVisibility oldC newC ops) := by
  unfold AtomicVisibility
  infer_instance

/-- Feed item handed to `_scrape_posts_public` by
`profile.get_posts()`.  The `ok` flag records whether processing the
item completes without the scraping library raising (the `except`
branch logs and continues); `_download_media` catches its own
exceptions and cannot skip an item. -/
structure FeedItem where
  shortcode : String
  caption : String
  likes : Nat
  is_video : Bool
  ok : Bool
deriving DecidableEq, Repr

/-- Translation of one successfully processed feed item into the
`InstagramPost` record built inside the loop body. -/
def mkFeedPost (it : FeedItem) : InstagramPost :=
  { shortcode := it.shortcode
    url := "https://www.instagram.com/p/" ++ it.shortcode ++ "/"
    caption := it.caption
    likes := it.likes
    is_video := it.is_video
    is_story := false }

/-- Embedding of the Python truthiness test
`if max_posts and i >= max_posts: break` — `None` and `0` are both
falsy, so neither ever triggers the break. -/
def capHit (max_posts : Option Nat) (i : Nat) : Bool :=
  match max_posts with
  | none => false
  | some n => decide (n ≠ 0) && decide (i ≥ n)

/-- Enumeration loop of `InstagramScraper._scrape_posts_public`:
`for i, post in enumerate(profile.get_posts())`, breaking when the cap
test fires, appending the built record on success and continuing past
per-item failures. -/
def scrapePostsGo (max_posts : Option Nat) :
    Nat → List FeedItem → List InstagramPost
  | _, [] => []
  | i, item :: rest =>
    if capHit max_posts i then []
    else if item.ok then mkFeedPost item :: scrapePostsGo max_posts (i + 1) rest
    else scrapePostsGo max_posts (i + 1) rest

/-- Embedding of `InstagramScraper._scrape_posts_public` restricted to
its item-selection behaviour. -/
def scrape_posts_public (max_posts : Option Nat)
    (feed : List FeedItem) : List InstagramPost :=
  scrapePostsGo max_posts 0 feed

/-- Safety limit of the story traversal loop:
`max_stories = 30  # Safety limit` in `_scrape_stories_playwright`. -/
def max_stories : Nat := 30

/-- Story traversal loop of `_scrape_stories_playwright` for a carousel
that stays inside the stories section and exposes an id at every step
(`nextId pos` is the id the URL shows after `pos` advances).  The fuel
argument counts the iterations still allowed by
`while story_count < max_stories`; each iteration extracts the current
id, stops if it was already seen (loop closure), and otherwise records
it, emits the item, and advances by one simulated click. -/
def storyTraverse (nextId : Nat → String) :
    Nat → Nat → List String → List String
  | 0, _, _ => []
  | fuel + 1, pos, seen =>
    let sid := nextId pos
    if sid ∈ seen then []
    else sid :: storyTraverse nextId fuel (pos + 1) (sid :: seen)

/-- Ids of the stories collected by a full traversal, started with
`story_count = 0` and an empty seen set. -/
def scrape_stories_ids (nextId : Nat → String) : List String :=
  storyTraverse nextId max_stories 0 []

/-- Carousel that cycles through the id period `L`:
after `i` advances the UI shows id `L[i mod length]`. -/
def cyc (L : List String) : Nat → String :=
  fun i => L.getD (i % L.length) ""

/-- Period of 31 pairwise distinct story ids, one more than the safety
limit of the traversal loop. -/
def c7_ids : List String :=
  ["i01", "i02", "i03", "i04", "i05", "i06", "i07", "i08", "i09", "i10",
   "i11", "i12", "i13", "i14", "i15", "i16", "i17", "i18", "i19", "i20",
   "i21", "i22", "i23", "i24", "i25", "i26", "i27", "i28", "i29", "i30",
   "i31"]

/-- One monitored account entry of accounts.json, restricted to the
fields the orchestrator consults. -/
structure Account where
  username : String
  include_stories : Bool
deriving DecidableEq, Repr

/-- One account of a run together with the externally determined
outcome of processing it: how many raw stories the scraper returned
(`scraped_stories_count`) and whether `process_account` raised an
unrecoverable exception (caught at the per-account boundary). -/
structure AccountRun where
  account : Account
  scrapedStories : Nat
  processRaises : Bool
deriving DecidableEq, Repr

/-- One invocation of `main` in monitor.py: the account list, whether
authentication is configured (`cookies_exist or INSTAGRAM_USERNAME`),
whether the single `scraper.login()` call raises, and the test-mode
flag. -/
structure RunConfig where
  accounts : List AccountRun
  authConfigured : Bool
  loginRaises : Bool
  testMode : Bool
deriving DecidableEq, Repr

/-- Embedding of
`needs_stories = any(a.get("include_stories", False) for a in accounts)`. -/
def needs_stories (accs : List AccountRun) : Bool :=
  accs.any (fun ar => ar.account.include_stories)

/-- Value of the `skip_stories` flag after the login block of `main`:
set when stories are needed and either no authentication is configured
or the login attempt raised. -/
def skip_stories (cfg : RunConfig) : Bool :=
  needs_stories cfg.accounts && (!cfg.authConfigured || cfg.loginRaises)

/-- Number of `scraper.login()` calls a run performs: one, before the
per-account loop, when stories are needed and authentication is
configured; the loop body itself contains no login call, so the count
does not depend on the accounts processed. -/
def login_attempts (cfg : RunConfig) : Nat :=
  if needs_stories cfg.accounts && cfg.authConfigured then 1 else 0

/-- Number of authentication-failure alerts a run sends: the
`send_system_alert` call in the `except` branch of the login attempt,
guarded by `if not test_mode`. -/
def auth_alert_count (cfg : RunConfig) : Nat :=
  if needs_stories cfg.accounts && cfg.authConfigured && cfg.loginRaises
      && !cfg.testMode then 1
  else 0

/-- Per-account `include_stories` after the fallback override
`if skip_stories: account_to_process["include_stories"] = False`. -/
def effective_include_stories (cfg : RunConfig) (ar : AccountRun) : Bool :=
  if skip_stories cfg then false else ar.account.include_stories

/-- Run-wide `story_requests` counter: incremented, for accounts whose
processing did not raise, when the effective `include_stories` is set. -/
def story_requests (cfg : RunConfig) : Nat :=
  (cfg.accounts.filter (fun ar =>
    !ar.processRaises && effective_include_stories cfg ar)).length

/-- Run-wide `story_failures` counter: among the counted story
requests, those whose `scraped_stories_count` is 0. -/
def story_failures (cfg : RunConfig) : Nat :=
  (cfg.accounts.filter (fun ar =>
    !ar.processRaises && effective_include_stories cfg ar
      && ar.scrapedStories == 0)).length

/-- Number of systemic capture-failure alerts a run sends.  The Python
test is `story_failures / story_requests > 0.5` on floats, guarded by
`if not test_mode and story_requests > 0`; since 0.5 is exactly
representable and the counts are far below 2^53, the float comparison
agrees with the exact rational one, embedded here as
`story_requests < 2 * story_failures`. -/
def systemic_alert_count (cfg : RunConfig) : Nat :=
  if !cfg.testMode && decide (0 < story_requests cfg)
      && decide (story_requests cfg < 2 * story_failures cfg) then 1
  else 0

/-- Test-mode run with an authentication failure: stories requested,
authentication configured, the login call raises. -/
def c5_cfg_test : RunConfig :=
  { accounts := [{ account := { username := "alice", include_stories := true },
                   scrapedStories := 0, processRaises := false }],
    authConfigured := true, loginRaises := true, testMode := true }

/-- Production run with an authentication failure over two accounts,
one of which requests stories. -/
def c5_cfg_prod : RunConfig :=
  { accounts := [{ account := { username := "alice", include_stories := true },
                   scrapedStories := 0, processRaises := false },
                 { account := { username := "bob", include_stories := false },
                   scrapedStories := 0, processRaises := false }],
    authConfigured := true, loginRaises := true, testMode := false }

/-- Test-mode run in which every story request yields zero stories. -/
def c6_cfg_test : RunConfig :=
  { accounts := [{ account := { username := "alice", include_stories := true },
                   scrapedStories := 0, processRaises := false }],
    authConfigured := true, loginRaises := false, testMode := true }

/-- Production run with 4 story requests of which exactly 2 yield zero
stories (failure rate exactly 50 percent). -/
def c6_cfg_half : RunConfig :=
  { accounts := [{ account := { username := "a1", include_stories := true },
                   scrapedStories := 0, processRaises := false },
                 { account := { username := "a2", include_stories := true },
                   scrapedStories := 0, processRaises := false },
                 { account := { username := "a3", include_stories := true },
                   scrapedStories := 5, processRaises := false },
                 { account := { username := "a4", include_stories := true },
                   scrapedStories := 7, processRaises := false }],
    authConfigured := true, loginRaises := false, testMode := false }

/-- Production run with 4 story requests of which 3 yield zero stories
(failure rate 75 percent). -/
def c6_cfg_three : RunConfig :=
  { accounts := [{ account := { username := "a1", include_stories := true },
                   scrapedStories := 0, processRaises := false },
                 { account := { username := "a2", include_stories := true },
                   scrapedStories := 0, processRaises := false },
                 { account := { username := "a3", include_stories := true },
                   scrapedStories := 0, processRaises := false },
                 { account := { username := "a4", include_stories := true },
                   scrapedStories := 7, processRaises := false }],
    authConfigured := true, loginRaises := false, testMode := false }

end KesselRun

namespace KesselRun

/-- Helper: reading the posts of the username just written by `dictSet`. -/
theorem get_analyzed_posts_dictSet_self (st : StateMap) (u : String)
    (a : AccountState) : get_analyzed_posts (dictSet st u a) u = a.posts := by
  unfold get_analyzed_posts dictSet
  simp

/-- Helper: `dictSet` leaves every other username's posts unchanged. -/
theorem get_analyzed_posts_dictSet_ne (st : StateMap) (u v : String)
    (a : AccountState) (hv : v ≠ u) :
    get_analyzed_posts (dictSet st u a) v = get_analyzed_posts st v := by
  unfold get_analyzed_posts dictSet
  simp [hv]

/-- Helper: reading the stories of the username just written by `dictSet`. -/
theorem get_analyzed_stories_dictSet_self (st : StateMap) (u : String)
    (a : AccountState) :
    get_analyzed_stories (dictSet st u a) u = a.stories := by
  unfold get_analyzed_stories dictSet
  simp

/-- Helper: `dictSet` leaves every other username's stories unchanged. -/
theorem get_analyzed_stories_dictSet_ne (st : StateMap) (u v : String)
    (a : AccountState) (hv : v ≠ u) :
    get_analyzed_stories (dictSet st u a) v = get_analyzed_stories st v := by
  unfold get_analyzed_stories dictSet
  simp [hv]

/-- Helper: recorded posts of the committed username after
`mark_analyzed`. -/
theorem get_analyzed_posts_mark_self (st : StateMap) (u : String)
    (ps ss : List String) (now : String) :
    get_analyzed_posts (mark_analyzed st u ps ss now) u =
      if ps.isEmpty then get_analyzed_posts st u
      else pyListUnion (get_analyzed_posts st u) ps := by
  unfold mark_analyzed
  rw [get_analyzed_posts_dictSet_self]
  cases hstu : st u <;> cases h1 : ps.isEmpty <;> cases h2 : ss.isEmpty <;>
    simp [get_analyzed_posts, hstu, h1, h2]

/-- Helper: recorded stories of the committed username after
`mark_analyzed`. -/
theorem get_analyzed_stories_mark_self (st : StateMap) (u : String)
    (ps ss : List String) (now : String) :
    get_analyzed_stories (mark_analyzed st u ps ss now) u =
      if ss.isEmpty then get_analyzed_stories st u
      else pyListUnion (get_analyzed_stories st u) ss := by
  unfold mark_analyzed
  rw [get_analyzed_stories_dictSet_self]
  cases hstu : st u <;> cases h1 : ps.isEmpty <;> cases h2 : ss.isEmpty <;>
    simp [get_analyzed_stories, hstu, h1, h2]

/-- Helper: `mark_analyzed` leaves other usernames untouched. -/
theorem get_analyzed_mark_ne (st : StateMap) (u : String)
    (ps ss : List String) (now : String) (v : String) (hv : v ≠ u) :
    get_analyzed_posts (mark_analyzed st u ps ss now) v =
        get_analyzed_posts st v ∧
    get_analyzed_stories (mark_analyzed st u ps ss now) v =
        get_analyzed_stories st v := by
  unfold mark_analyzed
  exact ⟨get_analyzed_posts_dictSet_ne st u v _ hv,
         get_analyzed_stories_dictSet_ne st u v _ hv⟩

/-- Helper: membership in `get_analyzed_posts` after `mark_analyzed`
contains every committed post shortcode. -/
theorem mem_get_analyzed_posts_mark (st : StateMap) (u : String)
    (ps ss : List String) (now : String) (x : String) (hx : x ∈ ps) :
    x ∈ get_analyzed_posts (mark_analyzed st u ps ss now) u := by
  have hps : ps.isEmpty = false := by
    cases ps with
    | nil => cases hx
    | cons a l => rfl
  rw [get_analyzed_posts_mark_self, hps]
  simp [pyListUnion, List.mem_dedup, hx]

/-- Helper: membership in `get_analyzed_stories` after `mark_analyzed`
contains every committed story id. -/
theorem mem_get_analyzed_stories_mark (st : StateMap) (u : String)
    (ps ss : List String) (now : String) (x : String) (hx : x ∈ ss) :
    x ∈ get_analyzed_stories (mark_analyzed st u ps ss now) u := by
  have hss : ss.isEmpty = false := by
    cases ss with
    | nil => cases hx
    | cons a l => rfl
  rw [get_analyzed_stories_mark_self, hss]
  simp [pyListUnion, List.mem_dedup, hx]

/-- Helper: `mark_analyzed` never removes a recorded post shortcode. -/
theorem get_analyzed_posts_mark_mono (st : StateMap) (u : String)
    (ps ss : List String) (now : String) (v x : String)
    (hx : x ∈ get_analyzed_posts st v) :
    x ∈ get_analyzed_posts (mark_analyzed st u ps ss now) v := by
  by_cases hv : v = u
  · subst hv
    rw [get_analyzed_posts_mark_self]
    cases h1 : ps.isEmpty <;> simp [pyListUnion, List.mem_dedup, hx]
  · rw [(get_analyzed_mark_ne st u ps ss now v hv).1]
    exact hx

/-- Helper: `mark_analyzed` never removes a recorded story id. -/
theorem get_analyzed_stories_mark_mono (st : StateMap) (u : String)
    (ps ss : List String) (now : String) (v x : String)
    (hx : x ∈ get_analyzed_stories st v) :
    x ∈ get_analyzed_stories (mark_analyzed st u ps ss now) v := by
  by_cases hv : v = u
  · subst hv
    rw [get_analyzed_stories_mark_self]
    cases h2 : ss.isEmpty <;> simp [pyListUnion, List.mem_dedup, hx]
  · rw [(get_analyzed_mark_ne st u ps ss now v hv).2]
    exact hx

/-- C1: `filter_new_posts` and `filter_new_stories` return exactly the
sublist of candidates whose shortcode is not in the recorded set for
that username and kind; the state is not modified (the embedding takes
the state by value and returns only the list, mirroring that the source
method performs no assignment to `self.state`). -/
theorem C1_filter_returns_exactly_unrecorded_sublist
    (st : StateMap) (u : String) (cands : List InstagramPost) :
    ((filter_new_posts st u cands).Sublist cands ∧
      ∀ p, p ∈ filter_new_posts st u cands ↔
        p ∈ cands ∧ p.shortcode ∉ get_analyzed_posts st u) ∧
    ((filter_new_stories st u cands).Sublist cands ∧
      ∀ s, s ∈ filter_new_stories st u cands ↔
        s ∈ cands ∧ s.shortcode ∉ get_analyzed_stories st u) := by
  refine ⟨⟨List.filter_sublist cands, fun p => ?_⟩,
          ⟨List.filter_sublist cands, fun s => ?_⟩⟩ <;>
    simp [filter_new_posts, filter_new_stories, List.mem_filter]

/-- C2: committing ids via `mark_analyzed` makes a subsequent filter of
any candidates drawn from those ids return the empty list, and the full
two-pass pipeline shape (filter, commit the filtered ids, filter the
same upstream content again) yields zero new items on the second pass,
for posts and stories alike. -/
theorem C2_no_reprocessing_after_commit
    (st : StateMap) (u now now2 : String)
    (ids sids : List String) (cp cs : List InstagramPost)
    (hp : ∀ p ∈ cp, p.shortcode ∈ ids)
    (hs : ∀ s ∈ cs, s.shortcode ∈ sids)
    (posts stories : List InstagramPost) :
    (filter_new_posts (mark_analyzed st u ids sids now) u cp = [] ∧
     filter_new_stories (mark_analyzed st u ids sids now) u cs = []) ∧
    (filter_new_posts
        (mark_analyzed st u
          ((filter_new_posts st u posts).map InstagramPost.shortcode)
          ((filter_new_stories st u stories).map InstagramPost.shortcode)
          now2) u posts = [] ∧
     filter_new_stories
        (mark_analyzed st u
          ((filter_new_posts st u posts).map InstagramPost.shortcode)
          ((filter_new_stories st u stories).map InstagramPost.shortcode)
          now2) u stories = []) := by
  constructor
  · constructor
    · unfold filter_new_posts
      rw [List.filter_eq_nil_iff]
      intro p hpmem
      simp only [decide_eq_true_eq, Decidable.not_not]
      exact mem_get_analyzed_posts_mark st u ids sids now _ (hp p hpmem)
    · unfold filter_new_stories
      rw [List.filter_eq_nil_iff]
      intro s hsmem
      simp only [decide_eq_true_eq, Decidable.not_not]
      exact mem_get_analyzed_stories_mark st u ids sids now _ (hs s hsmem)
  · constructor
    · unfold filter_new_posts
      rw [List.filter_eq_nil_iff]
      intro p hpmem
      simp only [decide_eq_true_eq, Decidable.not_not]
      by_cases hrec : p.shortcode ∈ get_analyzed_posts st u
      · -- already recorded before the run: mark_analyzed only grows the set
        exact get_analyzed_posts_mark_mono st u _ _ now2 u _ hrec
      · -- genuinely new in the first pass: its shortcode is committed
        apply mem_get_analyzed_posts_mark
        simp only [List.mem_map]
        refine ⟨p, ?_, rfl⟩
        simp [List.mem_filter, hpmem, hrec]
    · unfold filter_new_stories
      rw [List.filter_eq_nil_iff]
      intro s hsmem
      simp only [decide_eq_true_eq, Decidable.not_not]
      by_cases hrec : s.shortcode ∈ get_analyzed_stories st u
      · exact get_analyzed_stories_mark_mono st u _ _ now2 u _ hrec
      · apply mem_get_analyzed_stories_mark
        simp only [List.mem_map]
        refine ⟨s, ?_, rfl⟩
        simp [List.mem_filter, hsmem, hrec]

/-- C2 witness: concrete instantiation of the no-reprocessing theorem. -/
theorem C2_no_reprocessing_after_commit_witness :
    filter_new_posts
      (mark_analyzed emptyState "alice" ["p1"] ["s1"] "t0") "alice"
      [{ shortcode := "p1", url := "u", caption := "", likes := 3,
         is_video := false, is_story := false }] = [] :=
  (C2_no_reprocessing_after_commit emptyState "alice" "t0" "t1"
    ["p1"] ["s1"]
    [{ shortcode := "p1", url := "u", caption := "", likes := 3,
       is_video := false, is_story := false }] []
    (by intro p hp; simp at hp; simp [hp])
    (by intro s hs; cases hs) [] []).1.1

/-- C3: `mark_analyzed` is idempotent on the recorded id sets: running
it a second time with the same shortcode and story-id lists changes no
membership in any recorded post or story set, for any username. -/
theorem C3_mark_analyzed_idempotent
    (st : StateMap) (u : String) (ps ss : List String)
    (now now2 : String) (v x : String) :
    (x ∈ get_analyzed_posts
        (mark_analyzed (mark_analyzed st u ps ss now) u ps ss now2) v ↔
      x ∈ get_analyzed_posts (mark_analyzed st u ps ss now) v) ∧
    (x ∈ get_analyzed_stories
        (mark_analyzed (mark_analyzed st u ps ss now) u ps ss now2) v ↔
      x ∈ get_analyzed_stories (mark_analyzed st u ps ss now) v) := by
  by_cases hv : v = u
  · subst hv
    rw [get_analyzed_posts_mark_self, get_analyzed_posts_mark_self,
        get_analyzed_stories_mark_self, get_analyzed_stories_mark_self]
    constructor
    · cases h1 : ps.isEmpty <;>
        simp [h1, pyListUnion, List.mem_dedup]
    · cases h2 : ss.isEmpty <;>
        simp [h2, pyListUnion, List.mem_dedup]
  · rw [(get_analyzed_mark_ne _ u ps ss now2 v hv).1,
        (get_analyzed_mark_ne _ u ps ss now2 v hv).2]
    exact ⟨Iff.rfl, Iff.rfl⟩

/-- Helper: the Python slice `xs[-n:]` keeps only elements of `xs`. -/
theorem pyLastSlice_subset (xs : List String) (n : Nat) :
    pyLastSlice xs n ⊆ xs := by
  unfold pyLastSlice
  split
  · exact fun x hx => hx
  · exact List.drop_subset _ xs

/-- C9: the recorded id sets only grow under `mark_analyzed` (for every
username and both kinds), and the only removing operation is
`cleanup_old_stories`, which never touches any recorded post set, leaves
every other username's story set unchanged, and on the pruned username
keeps a subset of the previously recorded story ids. -/
theorem C9_sets_monotone_except_story_prune
    (st : StateMap) (u : String) (ps ss : List String) (now : String)
    (n : Nat) (v x : String) :
    (x ∈ get_analyzed_posts st v →
      x ∈ get_analyzed_posts (mark_analyzed st u ps ss now) v) ∧
    (x ∈ get_analyzed_stories st v →
      x ∈ get_analyzed_stories (mark_analyzed st u ps ss now) v) ∧
    get_analyzed_posts (cleanup_old_stories st u n) v =
      get_analyzed_posts st v ∧
    (v ≠ u → get_analyzed_stories (cleanup_old_stories st u n) v =
      get_analyzed_stories st v) ∧
    (x ∈ get_analyzed_stories (cleanup_old_stories st u n) v →
      x ∈ get_analyzed_stories st v) := by
  refine ⟨get_analyzed_posts_mark_mono st u ps ss now v x,
          get_analyzed_stories_mark_mono st u ps ss now v x, ?_, ?_, ?_⟩
  · unfold cleanup_old_stories
    cases hstu : st u with
    | none => rfl
    | some a =>
      by_cases hlen : a.stories.length > n
      · simp only [hlen, if_pos]
        by_cases hv : v = u
        · subst hv
          rw [get_analyzed_posts_dictSet_self]
          unfold get_analyzed_posts
          rw [hstu]
        · rw [get_analyzed_posts_dictSet_ne st u v _ hv]
      · simp [hlen]
  · intro hv
    unfold cleanup_old_stories
    cases hstu : st u with
    | none => rfl
    | some a =>
      by_cases hlen : a.stories.length > n
      · simp only [hlen, if_pos]
        rw [get_analyzed_stories_dictSet_ne st u v _ hv]
      · simp [hlen]
  · intro hx
    unfold cleanup_old_stories at hx
    cases hstu : st u with
    | none => rw [hstu] at hx; exact hx
    | some a =>
      rw [hstu] at hx
      by_cases hlen : a.stories.length > n
      · simp only [hlen, if_pos] at hx
        by_cases hv : v = u
        · subst hv
          rw [get_analyzed_stories_dictSet_self] at hx
          have hsub := pyLastSlice_subset a.stories n hx
          unfold get_analyzed_stories
          rw [hstu]
          exact hsub
        · rw [get_analyzed_stories_dictSet_ne st u v _ hv] at hx
          exact hx
      · simp only [hlen, if_neg, if_false] at hx
        exact hx

/-- C9 witness: concrete instantiation of the monotonicity theorem, at a
state holding two story ids for one username and pruning down to one. -/
theorem C9_sets_monotone_except_story_prune_witness :
    get_analyzed_posts
      (cleanup_old_stories
        (dictSet emptyState "alice"
          { posts := ["p1"], stories := ["s1", "s2"], last_run := none })
        "alice" 1) "alice" =
    get_analyzed_posts
      (dictSet emptyState "alice"
        { posts := ["p1"], stories := ["s1", "s2"], last_run := none })
      "alice" ∧
    get_analyzed_stories
      (cleanup_old_stories
        (dictSet emptyState "alice"
          { posts := ["p1"], stories := ["s1", "s2"], last_run := none })
        "alice" 1) "bob" =
    get_analyzed_stories
      (dictSet emptyState "alice"
        { posts := ["p1"], stories := ["s1", "s2"], last_run := none })
      "bob" :=
  ⟨(C9_sets_monotone_except_story_prune
      (dictSet emptyState "alice"
        { posts := ["p1"], stories := ["s1", "s2"], last_run := none })
      "alice" [] [] "t" 1 "alice" "z").2.2.1,
   (C9_sets_monotone_except_story_prune
      (dictSet emptyState "alice"
        { posts := ["p1"], stories := ["s1", "s2"], last_run := none })
      "alice" [] [] "t" 1 "bob" "z").2.2.2.1 (by decide)⟩

/-- C10: when the persisted state file exists but cannot be parsed,
loading yields the empty state without raising: every recorded set reads
back empty and a subsequent filter classifies every candidate as new. -/
theorem C10_corrupt_state_file_resets_dedup_history
    (u : String) (cands : List InstagramPost) :
    get_analyzed_posts (load_state LoadOutcome.corrupt) u = [] ∧
    get_analyzed_stories (load_state LoadOutcome.corrupt) u = [] ∧
    filter_new_posts (load_state LoadOutcome.corrupt) u cands = cands ∧
    filter_new_stories (load_state LoadOutcome.corrupt) u cands = cands := by
  refine ⟨rfl, rfl, ?_, ?_⟩ <;>
    simp [filter_new_posts, filter_new_stories, load_state,
      get_analyzed_posts, get_analyzed_stories, emptyState]

/-- C4 counterexample: the save performed by `_save_state` is not
atomic.  With old contents "old" and serialized payload "new", the
truncation step exposes an empty file, which is neither the complete
old contents nor the complete new contents. -/
theorem C4_counterexample_truncation_window :
    ¬ AtomicVisibility "old" "new" (save_state_ops ["new"]) := by
  decide

/-- C4 (amended): `_save_state` truncates the state file in place and
then writes into it, so an empty intermediate file is always
observable; whenever old and new contents are both non-empty the
write-then-replace guarantee fails, whereas the atomic replace
described by the spec would satisfy it. -/
theorem C4_save_state_truncate_write_not_atomic
    (oldC payload : String) (chunks : List String)
    (hold : oldC ≠ "") (hpay : payload ≠ "") :
    "" ∈ observableStates oldC (save_state_ops chunks) ∧
    ¬ AtomicVisibility oldC payload (save_state_ops chunks) ∧
    AtomicVisibility oldC payload (specAtomicSaveOps payload) := by
  have hmem : "" ∈ observableStates oldC (save_state_ops chunks) := by
    unfold observableStates save_state_ops
    cases chunks with
    | nil => simp [List.scanl, applyFsOp]
    | cons c rest => simp [List.scanl, applyFsOp]
  refine ⟨hmem, ?_, ?_⟩
  · intro hatomic
    rcases hatomic "" hmem with h | h
    · exact hold h.symm
    · exact hpay h.symm
  · intro c hc
    unfold specAtomicSaveOps observableStates at hc
    simp [List.scanl, applyFsOp] at hc
    rcases hc with h | h
    · exact Or.inl h
    · exact Or.inr h

/-- C4 witness: concrete instantiation of the amended persistence
theorem, with the payload written in two chunks. -/
theorem C4_save_state_truncate_write_not_atomic_witness :
    ¬ AtomicVisibility "old" "new" (save_state_ops ["ne", "w"]) ∧
    AtomicVisibility "old" "new" (specAtomicSaveOps "new") :=
  ⟨(C4_save_state_truncate_write_not_atomic "old" "new" ["ne", "w"]
      (by decide) (by decide)).2.1,
   (C4_save_state_truncate_write_not_atomic "old" "new" ["ne", "w"]
      (by decide) (by decide)).2.2⟩

/-- Helper: with a positive cap `n`, the enumeration loop started at
index `i` returns `min (n - i) M` items when all `M` remaining feed
items process successfully. -/
theorem scrapePostsGo_length_cap (n : Nat) (hn : 1 ≤ n) :
    ∀ (feed : List FeedItem), (∀ it ∈ feed, it.ok = true) → ∀ i : Nat,
      (scrapePostsGo (some n) i feed).length = min (n - i) feed.length := by
  intro feed
  induction feed with
  | nil => intro hok i; simp [scrapePostsGo]
  | cons item rest ih =>
    intro hok i
    have hitem : item.ok = true := hok item (by simp)
    have hrest : ∀ it ∈ rest, it.ok = true := by
      intro it hit; exact hok it (by simp [hit])
    by_cases hi : i ≥ n
    · have hcap : capHit (some n) i = true := by
        unfold capHit
        simp [hi]
        omega
      simp only [scrapePostsGo, hcap, if_pos]
      simp
      omega
    · have hcap : capHit (some n) i = false := by
        unfold capHit
        simp
        omega
      simp only [scrapePostsGo, hcap, Bool.false_eq_true, if_false, hitem,
        if_pos, List.length_cons]
      rw [ih hrest (i + 1)]
      omega

/-- Helper: when the cap test can never fire (cap absent or zero), the
loop returns one item per successfully processed feed item. -/
theorem scrapePostsGo_length_nocap (mp : Option Nat)
    (hmp : ∀ i, capHit mp i = false) :
    ∀ (feed : List FeedItem), (∀ it ∈ feed, it.ok = true) → ∀ i : Nat,
      (scrapePostsGo mp i feed).length = feed.length := by
  intro feed
  induction feed with
  | nil => intro hok i; simp [scrapePostsGo]
  | cons item rest ih =>
    intro hok i
    have hitem : item.ok = true := hok item (by simp)
    have hrest : ∀ it ∈ rest, it.ok = true := by
      intro it hit; exact hok it (by simp [hit])
    simp only [scrapePostsGo, hmp i, Bool.false_eq_true, if_false, hitem,
      if_pos, List.length_cons]
    rw [ih hrest (i + 1)]

/-- C8 counterexample: with `max_posts = 0` the Python truthiness test
disables the cap, so a feed of M = 1 item yields 1 item although the
claim, at N = 0 and M >= N, requires exactly 0. -/
theorem C8_counterexample_zero_cap :
    (scrape_posts_public (some 0)
      [{ shortcode := "A", caption := "", likes := 0,
         is_video := false, ok := true }]).length = 1 ∧
    ¬ (scrape_posts_public (some 0)
      [{ shortcode := "A", caption := "", likes := 0,
         is_video := false, ok := true }]).length = 0 := by
  decide

/-- C8 (amended): for every positive maximum count N and every feed of
M items that all process successfully, the Post Harvester returns
exactly `min N M` items — N when M >= N, M when M < N; a maximum count
of 0 behaves like no cap at all (Python falsiness) and returns all M
items, as does an absent cap. -/
theorem C8_cap_enforced_for_positive_cap
    (n : Nat) (feed : List FeedItem) (hn : 1 ≤ n)
    (hok : ∀ it ∈ feed, it.ok = true) :
    (scrape_posts_public (some n) feed).length = min n feed.length ∧
    (scrape_posts_public (some 0) feed).length = feed.length ∧
    (scrape_posts_public none feed).length = feed.length := by
  refine ⟨?_, ?_, ?_⟩
  · unfold scrape_posts_public
    rw [scrapePostsGo_length_cap n hn feed hok 0]
    omega
  · unfold scrape_posts_public
    exact scrapePostsGo_length_nocap (some 0) (fun i => by simp [capHit]) feed hok 0
  · unfold scrape_posts_public
    exact scrapePostsGo_length_nocap none (fun i => by simp [capHit]) feed hok 0

/-- C8 witness: a cap of 2 over a fully successful feed of 3 items
returns exactly 2 items. -/
theorem C8_cap_enforced_for_positive_cap_witness :
    (scrape_posts_public (some 2)
      [{ shortcode := "A", caption := "", likes := 0,
         is_video := false, ok := true },
       { shortcode := "B", caption := "", likes := 1,
         is_video := true, ok := true },
       { shortcode := "C", caption := "", likes := 2,
         is_video := false, ok := true }]).length =
      min 2 3 :=
  (C8_cap_enforced_for_positive_cap 2
    [{ shortcode := "A", caption := "", likes := 0,
       is_video := false, ok := true },
     { shortcode := "B", caption := "", likes := 1,
       is_video := true, ok := true },
     { shortcode := "C", caption := "", likes := 2,
       is_video := false, ok := true }]
    (by decide) (by decide)).1

/-- Helper: the story traversal never collects more items than it has
loop iterations left. -/
theorem storyTraverse_length_le (f : Nat → String) :
    ∀ (fuel pos : Nat) (seen : List String),
      (storyTraverse f fuel pos seen).length ≤ fuel := by
  intro fuel
  induction fuel with
  | zero => intro pos seen; simp [storyTraverse]
  | succ n ih =>
    intro pos seen
    unfold storyTraverse
    by_cases h : f pos ∈ seen
    · simp [h]
    · simp only [h, if_neg, if_false, List.length_cons]
      have := ih (pos + 1) (f pos :: seen)
      omega

/-- Helper: one unfolding step of the traversal loop. -/
theorem storyTraverse_succ (f : Nat → String) (fuel pos : Nat)
    (seen : List String) :
    storyTraverse f (fuel + 1) pos seen =
      if f pos ∈ seen then []
      else f pos :: storyTraverse f fuel (pos + 1) (f pos :: seen) := rfl

/-- Helper: traversing the cyclic carousel over a duplicate-free period
`L`, having already collected the first `k` ids, collects exactly the
remaining ids of the period provided enough fuel remains. -/
theorem storyTraverse_cyc (L : List String) (hnd : L.Nodup)
    (hne : L ≠ []) :
    ∀ (fuel k : Nat), k ≤ L.length → L.length ≤ k + fuel →
      storyTraverse (cyc L) fuel k ((L.take k).reverse) = L.drop k := by
  intro fuel
  induction fuel with
  | zero =>
    intro k hk hfuel
    have hkl : k = L.length := by omega
    subst hkl
    simp [storyTraverse]
  | succ n ih =>
    intro k hk hfuel
    have hlpos : 0 < L.length := List.length_pos.mpr hne
    by_cases hkl : k < L.length
    · have hid : cyc L k = L[k] := by
        unfold cyc
        rw [Nat.mod_eq_of_lt hkl]
        simp [List.getD_eq_getElem?_getD, List.getElem?_eq_getElem hkl]
      have hnotmem : L[k] ∉ (L.take k).reverse := by
        rw [List.mem_reverse]
        intro hmem
        obtain ⟨j, hj, hjeq⟩ := List.mem_iff_getElem.mp hmem
        have hjlen : j < k := by
          rw [List.length_take] at hj
          omega
        have hjL : j < L.length := by omega
        rw [List.getElem_take] at hjeq
        have hjk : j = k := (List.Nodup.getElem_inj_iff hnd).mp hjeq
        omega
      have hstep : L[k] :: (L.take k).reverse = (L.take (k + 1)).reverse := by
        rw [List.take_succ, List.reverse_append]
        simp [List.getElem?_eq_getElem hkl]
      rw [storyTraverse_succ, hid, if_neg hnotmem, hstep,
        ih (k + 1) (by omega) (by omega), List.drop_eq_getElem_cons hkl]
    · have hkl2 : k = L.length := by omega
      subst hkl2
      have hid : cyc L L.length = L[0] := by
        unfold cyc
        rw [Nat.mod_self]
        simp [List.getD_eq_getElem?_getD, List.getElem?_eq_getElem hlpos]
      have hmem : L[0] ∈ (L.take L.length).reverse := by
        rw [List.take_length, List.mem_reverse]
        exact List.getElem_mem hlpos
      rw [storyTraverse_succ, hid, if_pos hmem, List.drop_length]

/-- C7 counterexample: a carousel cycling through 31 pairwise distinct
ids.  The claim requires one collected item per distinct id, but the
traversal stops at the safety limit after 30 items, so the last id is
never returned. -/
theorem C7_counterexample_period_beyond_safety_limit :
    c7_ids.Nodup ∧ c7_ids.length = 31 ∧
    (scrape_stories_ids (cyc c7_ids)).length = 30 ∧
    scrape_stories_ids (cyc c7_ids) ≠ c7_ids := by
  decide

/-- C7 (amended): for every carousel cycling through a duplicate-free
period of at most 30 (the safety limit) ids, the traversal returns
exactly one item per distinct id in first-seen order — the period
itself — excluding the repeated id, and every traversal whatsoever
terminates with at most `max_stories` collected items. -/
theorem C7_loop_closure_within_safety_limit
    (L : List String) (hnd : L.Nodup) (hne : L ≠ [])
    (hlen : L.length ≤ max_stories) :
    scrape_stories_ids (cyc L) = L ∧
    ∀ f : Nat → String, (scrape_stories_ids f).length ≤ max_stories := by
  constructor
  · unfold scrape_stories_ids
    have h := storyTraverse_cyc L hnd hne max_stories 0
      (by omega) (by omega)
    simpa using h
  · intro f
    exact storyTraverse_length_le f max_stories 0 []

/-- C7 witness: the carousel cycling through `a, b, c` yields exactly
`[a, b, c]`. -/
theorem C7_loop_closure_within_safety_limit_witness :
    scrape_stories_ids (cyc ["a", "b", "c"]) = ["a", "b", "c"] :=
  (C7_loop_closure_within_safety_limit ["a", "b", "c"]
    (by decide) (by decide) (by decide)).1

/-- C5 counterexample: a test-mode run in which stories are requested,
authentication is configured and the login attempt raises.  The run is
downgraded (every effective `include_stories` is false) but no
authentication-failure alert is sent, because the alert call is guarded
by `if not test_mode` — contradicting the claim that every such run
raises exactly one alert. -/
theorem C5_counterexample_test_mode_suppresses_alert :
    needs_stories c5_cfg_test.accounts = true ∧
    c5_cfg_test.authConfigured = true ∧
    c5_cfg_test.loginRaises = true ∧
    (∀ ar ∈ c5_cfg_test.accounts,
      effective_include_stories c5_cfg_test ar = false) ∧
    auth_alert_count c5_cfg_test = 0 := by
  decide

/-- C5 (amended): in every non-test run in which some account requests
stories, authentication is configured and the login attempt raises, the
orchestrator overrides every account's effective `include_stories` to
false, performs exactly one login attempt regardless of the account
list (no per-account retry), and sends exactly one
authentication-failure alert. -/
theorem C5_auth_failure_downgrades_run
    (cfg : RunConfig)
    (hn : needs_stories cfg.accounts = true)
    (ha : cfg.authConfigured = true)
    (hr : cfg.loginRaises = true)
    (ht : cfg.testMode = false) :
    (∀ ar ∈ cfg.accounts, effective_include_stories cfg ar = false) ∧
    login_attempts cfg = 1 ∧
    auth_alert_count cfg = 1 := by
  have hskip : skip_stories cfg = true := by
    unfold skip_stories
    simp [hn, hr]
  refine ⟨?_, ?_, ?_⟩
  · intro ar hmem
    unfold effective_include_stories
    simp [hskip]
  · unfold login_attempts
    simp [hn, ha]
  · unfold auth_alert_count
    simp [hn, ha, hr, ht]

/-- C5 witness: concrete production run with an authentication
failure. -/
theorem C5_auth_failure_downgrades_run_witness :
    (∀ ar ∈ c5_cfg_prod.accounts,
      effective_include_stories c5_cfg_prod ar = false) ∧
    login_attempts c5_cfg_prod = 1 ∧
    auth_alert_count c5_cfg_prod = 1 :=
  C5_auth_failure_downgrades_run c5_cfg_prod
    (by decide) (by decide) (by decide) (by decide)

/-- C6 counterexample: a test-mode run with one story request that
yields zero stories.  The failure rate is 100 percent, strictly above
one half, yet no systemic alert is sent because the alert block is
guarded by `if not test_mode` — contradicting the claim for every run
with positive story requests. -/
theorem C6_counterexample_test_mode_suppresses_alert :
    0 < story_requests c6_cfg_test ∧
    story_requests c6_cfg_test < 2 * story_failures c6_cfg_test ∧
    systemic_alert_count c6_cfg_test = 0 := by
  decide

/-- C6 (amended): in every non-test run with at least one story
request, the systemic capture-failure alert is sent exactly once if and
only if the failure rate is strictly above one half
(`story_requests < 2 * story_failures`), and is never sent more than
once. -/
theorem C6_systemic_alert_strict_majority
    (cfg : RunConfig)
    (ht : cfg.testMode = false)
    (hr : 0 < story_requests cfg) :
    (systemic_alert_count cfg = 1 ↔
      story_requests cfg < 2 * story_failures cfg) ∧
    systemic_alert_count cfg ≤ 1 := by
  unfold systemic_alert_count
  by_cases hgt : story_requests cfg < 2 * story_failures cfg
  · simp [ht, hr, hgt]
  · simp [ht, hr, hgt]

/-- C6 witness: the boundary instances of the amended theorem — with 4
story requests, 2 zero-story outcomes (exactly 50 percent) send no
alert, 3 zero-story outcomes (75 percent) send exactly one. -/
theorem C6_systemic_alert_strict_majority_witness :
    (systemic_alert_count c6_cfg_half = 1 ↔
      story_requests c6_cfg_half < 2 * story_failures c6_cfg_half) ∧
    (systemic_alert_count c6_cfg_three = 1 ↔
      story_requests c6_cfg_three < 2 * story_failures c6_cfg_three) ∧
    systemic_alert_count c6_cfg_half = 0 ∧
    systemic_alert_count c6_cfg_three = 1 :=
  ⟨(C6_systemic_alert_strict_majority c6_cfg_half rfl (by decide)).1,
   (C6_systemic_alert_strict_majority c6_cfg_three rfl (by decide)).1,
   by decide, by decide⟩

end KesselRun
